import Mathlib

/-!
Shallow embedding of src/app.py, a lottery-style prediction service.
Observations carry a numeric value 0-9 classified into the binary category
B (value at least 5) or S. The core is the function dragonx_engine together
with the per-cycle job that grades the previous prediction and appends a new
one. Python float comparisons are replaced by exact integer comparisons;
each replacement carries a comment arguing that, at the attainable operand
sizes, the correctly rounded float test agrees with the exact test.
-/

namespace DragonX

/-- Binary category of an observation: B (big, value at least 5) or S (small). -/
inductive Cat
  | B
  | S
  deriving DecidableEq

/-- Category slot of a stored prediction: a real category or the SKIP verdict. -/
inductive PCat
  | cat (c : Cat)
  | skip
  deriving DecidableEq

/-- Result status of a stored prediction: P is pending, the rest are grades. -/
inductive Res
  | P
  | Win
  | Lose
  | Jackpot
  deriving DecidableEq

/-- Bias labels produced by the engine. -/
inductive Bias
  | NEUTRAL
  | MOMENTUM_BIAS
  | REVERSAL_BIAS
  | PATTERN_BIAS
  | CHOP_BIAS
  | DRAGON_RISK
  deriving DecidableEq

/-- Structured form of the used_pattern rationale string of the source. The
source dispatches on disjoint substrings of that string (10-digit, 9-digit,
8-digit, 7-digit, 6-digit, DOMINANCE, MOMENTUM, SHORT_STREAK, ALTERNATING,
digit); the constructor tells exactly which of those substrings occur, so the
substring dispatch is reproduced by matching on the constructor. Display-only
payload of the string (the dominance percentage) is not carried. -/
inductive Logic
  | statistical_fallback
  | dragon_skip
  | pattern (L : Nat) (key : List Cat) (pred : Cat)
  | short_streak (count : Nat)
  | alternating
  | dominanceB
  | dominanceS
  | momentum
  deriving DecidableEq

/-- The category opposite to the given one. -/
def flip : Cat → Cat
  | Cat.B => Cat.S
  | Cat.S => Cat.B

/-- Source get_bs: B if num >= 5 else S. -/
def get_bs (num : Nat) : Cat :=
  if 5 ≤ num then Cat.B else Cat.S

/-- A stored prediction record. The num field is an Option, with none standing
for the dash placeholder that the SKIP verdict stores. -/
structure Pred where
  period : Nat
  bs : PCat
  num : Option Nat
  confidence : Nat
  logic : Logic
  bias : Bias
  result : Res
  deriving DecidableEq

/-- The record returned by the engine. -/
structure EngineOut where
  bs : PCat
  num : Option Nat
  confidence : Nat
  logic : Logic
  bias : Bias
  deriving DecidableEq

/-- Source detect_alternating: none if shorter than 3 or some adjacent pair is
equal, else the flip of the last element. -/
def detect_alternating (seq : List Cat) : Option Cat :=
  if seq.length < 3 then none
  else if (seq.zip seq.tail).any (fun q => q.1 == q.2) then none
  else (seq.getLast?).map flip

/-- Result of count_streak: the repeated category and the run length. -/
structure Streak where
  value : Option Cat
  count : Nat
  deriving DecidableEq

/-- Source count_streak: walks backward from the last element while elements
equal it; equivalently the length of the maximal constant suffix. -/
def count_streak (seq : List Cat) : Streak :=
  match seq.getLast? with
  | none => { value := none, count := 0 }
  | some last => { value := some last, count := (seq.reverse.takeWhile (fun c => c == last)).length }

/-- The STREAK_BREAK_PATTERNS catalogue of the source, in source order,
duplicates included. -/
def STREAK_BREAK_PATTERNS : List (List Cat) := [
    [Cat.B,Cat.B,Cat.B,Cat.S],
    [Cat.B,Cat.B,Cat.S,Cat.B],
    [Cat.B,Cat.S,Cat.B,Cat.B],
    [Cat.S,Cat.B,Cat.B,Cat.B],
    [Cat.S,Cat.S,Cat.S,Cat.B],
    [Cat.S,Cat.S,Cat.B,Cat.S],
    [Cat.S,Cat.B,Cat.S,Cat.S],
    [Cat.B,Cat.S,Cat.S,Cat.S],
    [Cat.B,Cat.B,Cat.S,Cat.S],
    [Cat.B,Cat.S,Cat.S,Cat.B],
    [Cat.S,Cat.S,Cat.B,Cat.B],
    [Cat.S,Cat.B,Cat.B,Cat.S],
    [Cat.B,Cat.S,Cat.B,Cat.S],
    [Cat.S,Cat.B,Cat.S,Cat.B],
    [Cat.B,Cat.B,Cat.B,Cat.B],
    [Cat.S,Cat.S,Cat.S,Cat.S],
    [Cat.B,Cat.B,Cat.B,Cat.B,Cat.B,Cat.S],
    [Cat.B,Cat.B,Cat.B,Cat.B,Cat.S,Cat.B],
    [Cat.B,Cat.B,Cat.B,Cat.S,Cat.B,Cat.B],
    [Cat.B,Cat.B,Cat.S,Cat.B,Cat.B,Cat.B],
    [Cat.B,Cat.S,Cat.B,Cat.B,Cat.B,Cat.B],
    [Cat.S,Cat.B,Cat.B,Cat.B,Cat.B,Cat.B],
    [Cat.S,Cat.S,Cat.S,Cat.S,Cat.S,Cat.B],
    [Cat.S,Cat.S,Cat.S,Cat.S,Cat.B,Cat.S],
    [Cat.S,Cat.S,Cat.S,Cat.B,Cat.S,Cat.S],
    [Cat.S,Cat.S,Cat.B,Cat.S,Cat.S,Cat.S],
    [Cat.S,Cat.B,Cat.S,Cat.S,Cat.S,Cat.S],
    [Cat.B,Cat.S,Cat.S,Cat.S,Cat.S,Cat.S],
    [Cat.B,Cat.B,Cat.B,Cat.S,Cat.S,Cat.B],
    [Cat.B,Cat.B,Cat.S,Cat.S,Cat.B,Cat.B],
    [Cat.B,Cat.S,Cat.S,Cat.B,Cat.B,Cat.B],
    [Cat.S,Cat.S,Cat.B,Cat.B,Cat.B,Cat.S],
    [Cat.S,Cat.B,Cat.B,Cat.B,Cat.S,Cat.S],
    [Cat.B,Cat.B,Cat.B,Cat.S,Cat.S,Cat.S],
    [Cat.B,Cat.B,Cat.S,Cat.S,Cat.S,Cat.B],
    [Cat.B,Cat.S,Cat.S,Cat.S,Cat.B,Cat.B],
    [Cat.S,Cat.S,Cat.S,Cat.B,Cat.B,Cat.B],
    [Cat.S,Cat.S,Cat.B,Cat.B,Cat.B,Cat.S],
    [Cat.S,Cat.B,Cat.B,Cat.B,Cat.S,Cat.S],
    [Cat.B,Cat.B,Cat.S,Cat.S,Cat.B,Cat.S],
    [Cat.B,Cat.S,Cat.S,Cat.B,Cat.B,Cat.S],
    [Cat.S,Cat.S,Cat.B,Cat.B,Cat.S,Cat.S],
    [Cat.S,Cat.B,Cat.B,Cat.S,Cat.S,Cat.B],
    [Cat.B,Cat.B,Cat.S,Cat.S,Cat.B,Cat.B],
    [Cat.B,Cat.S,Cat.S,Cat.B,Cat.S,Cat.S],
    [Cat.S,Cat.S,Cat.B,Cat.B,Cat.S,Cat.B],
    [Cat.B,Cat.B,Cat.S,Cat.B,Cat.S,Cat.B],
    [Cat.S,Cat.B,Cat.B,Cat.S,Cat.B,Cat.B],
    [Cat.B,Cat.S,Cat.B,Cat.S,Cat.B,Cat.S],
    [Cat.S,Cat.B,Cat.S,Cat.B,Cat.S,Cat.B],
    [Cat.B,Cat.B,Cat.S,Cat.S,Cat.B,Cat.B],
    [Cat.S,Cat.S,Cat.B,Cat.B,Cat.S,Cat.S],
    [Cat.B,Cat.S,Cat.S,Cat.B,Cat.S,Cat.S],
    [Cat.S,Cat.B,Cat.B,Cat.S,Cat.S,Cat.B],
    [Cat.B,Cat.B,Cat.S,Cat.S,Cat.B,Cat.S],
    [Cat.S,Cat.B,Cat.S,Cat.S,Cat.B,Cat.B],
    [Cat.B,Cat.S,Cat.S,Cat.B,Cat.B,Cat.B],
    [Cat.S,Cat.B,Cat.B,Cat.S,Cat.B,Cat.S],
    [Cat.S,Cat.S,Cat.S,Cat.B,Cat.B,Cat.S],
    [Cat.B,Cat.B,Cat.S,Cat.S,Cat.S,Cat.B],
    [Cat.S,Cat.B,Cat.B,Cat.B,Cat.S,Cat.B],
    [Cat.B,Cat.B,Cat.B,Cat.B,Cat.B,Cat.B,Cat.B],
    [Cat.S,Cat.S,Cat.S,Cat.S,Cat.S,Cat.S,Cat.S],
    [Cat.B,Cat.B,Cat.B,Cat.B,Cat.B,Cat.B,Cat.S],
    [Cat.S,Cat.S,Cat.S,Cat.S,Cat.S,Cat.S,Cat.B],
    [Cat.B,Cat.B,Cat.B,Cat.B,Cat.S,Cat.B,Cat.B],
    [Cat.S,Cat.S,Cat.S,Cat.B,Cat.S,Cat.S,Cat.S],
    [Cat.B,Cat.B,Cat.B,Cat.S,Cat.B,Cat.B,Cat.B],
    [Cat.B,Cat.B,Cat.S,Cat.B,Cat.B,Cat.B,Cat.B],
    [Cat.B,Cat.S,Cat.B,Cat.B,Cat.B,Cat.B,Cat.B],
    [Cat.S,Cat.S,Cat.B,Cat.B,Cat.S,Cat.S,Cat.B],
    [Cat.S,Cat.B,Cat.S,Cat.S,Cat.B,Cat.B,Cat.S],
    [Cat.S,Cat.S,Cat.B,Cat.B,Cat.S,Cat.B,Cat.S],
    [Cat.B,Cat.B,Cat.S,Cat.B,Cat.B,Cat.S,Cat.B],
    [Cat.S,Cat.B,Cat.S,Cat.B,Cat.S,Cat.B,Cat.S],
    [Cat.B,Cat.S,Cat.S,Cat.B,Cat.S,Cat.S,Cat.B],
    [Cat.S,Cat.S,Cat.B,Cat.B,Cat.S,Cat.S,Cat.S],
    [Cat.B,Cat.B,Cat.S,Cat.S,Cat.S,Cat.S,Cat.S],
    [Cat.S,Cat.S,Cat.B,Cat.B,Cat.B,Cat.S,Cat.S],
    [Cat.B,Cat.S,Cat.S,Cat.B,Cat.B,Cat.B,Cat.S],
    [Cat.S,Cat.S,Cat.B,Cat.S,Cat.S,Cat.B,Cat.B],
    [Cat.B,Cat.B,Cat.B,Cat.B,Cat.B,Cat.B],
    [Cat.S,Cat.S,Cat.S,Cat.S,Cat.S,Cat.S],
    [Cat.B,Cat.B,Cat.B,Cat.S,Cat.S,Cat.B],
    [Cat.S,Cat.S,Cat.B,Cat.B,Cat.S,Cat.S],
    [Cat.B,Cat.B,Cat.S,Cat.B,Cat.S,Cat.B],
    [Cat.S,Cat.B,Cat.B,Cat.S,Cat.B,Cat.B],
    [Cat.B,Cat.S,Cat.B,Cat.S,Cat.B,Cat.S],
    [Cat.S,Cat.B,Cat.S,Cat.B,Cat.S,Cat.B],
    [Cat.B,Cat.B,Cat.S,Cat.S,Cat.B,Cat.B],
    [Cat.S,Cat.S,Cat.B,Cat.B,Cat.S,Cat.S],
    [Cat.B,Cat.S,Cat.S,Cat.B,Cat.S,Cat.S],
    [Cat.S,Cat.B,Cat.B,Cat.S,Cat.S,Cat.B],
    [Cat.B,Cat.B,Cat.S,Cat.S,Cat.B,Cat.S],
    [Cat.S,Cat.B,Cat.S,Cat.S,Cat.B,Cat.B],
    [Cat.B,Cat.S,Cat.S,Cat.B,Cat.B,Cat.B],
    [Cat.S,Cat.B,Cat.B,Cat.S,Cat.B,Cat.S],
    [Cat.S,Cat.S,Cat.S,Cat.B,Cat.B,Cat.S],
    [Cat.B,Cat.B,Cat.S,Cat.S,Cat.S,Cat.B],
    [Cat.S,Cat.B,Cat.B,Cat.B,Cat.S,Cat.B],
    [Cat.B,Cat.B,Cat.S,Cat.S,Cat.B],
    [Cat.S,Cat.S,Cat.B,Cat.B,Cat.S],
    [Cat.B,Cat.S,Cat.B,Cat.B,Cat.S],
    [Cat.S,Cat.B,Cat.S,Cat.B,Cat.B],
    [Cat.B,Cat.B,Cat.B,Cat.S,Cat.S],
    [Cat.S,Cat.S,Cat.S,Cat.B,Cat.B],
    [Cat.S,Cat.B,Cat.S,Cat.S,Cat.B],
    [Cat.B,Cat.S,Cat.S,Cat.S,Cat.B],
    [Cat.S,Cat.B,Cat.B,Cat.S,Cat.B],
    [Cat.S,Cat.S,Cat.B,Cat.S,Cat.S]
]

/-- Catalogue entries of exactly the given length; the source builds one dict
per length whose keys are these entries. -/
def patterns_of_len (L : Nat) : List (List Cat) :=
  STREAK_BREAK_PATTERNS.filter (fun q => q.length == L)

/-- Value stored in a pattern dict for an entry: S if the first element is B
else B, as in the source. -/
def pattern_lookup_val (q : List Cat) : Cat :=
  match q.head? with
  | some Cat.B => Cat.S
  | _ => Cat.B

/-- The last n elements of a list, as the Python slice l[-n:]. -/
def lastN (l : List Cat) (n : Nat) : List Cat :=
  l.drop (l.length - n)

/-- One iteration of the pattern lookup loop: at length L, take the most
recent L categories of the oldest-first sequence and look them up among the
entries of that length. -/
def match_at (natural : List Cat) (L : Nat) : Option (Nat × List Cat × Cat) :=
  if L ≤ natural.length then
    if lastN natural L ∈ patterns_of_len L then
      some (L, lastN natural L, pattern_lookup_val (lastN natural L))
    else none
  else none

/-- The pattern lookup loop of the source: lengths 10 down to 5, first hit
wins. -/
def find_pattern (natural : List Cat) : Option (Nat × List Cat × Cat) :=
  match match_at natural 10 with
  | some r => some r
  | none =>
  match match_at natural 9 with
  | some r => some r
  | none =>
  match match_at natural 8 with
  | some r => some r
  | none =>
  match match_at natural 7 with
  | some r => some r
  | none =>
  match match_at natural 6 with
  | some r => some r
  | none => match_at natural 5

/-- Cold-start test of the source: avg = sum/len as a float (5 when the list
is empty), then avg >= 5. Here the list has at most 9 entries of single-digit
values, so the correctly rounded float quotient compares to 5 exactly as the
rational sum/len does, which is the integer test 5*len <= sum. -/
def avg_ge5 (nums : List Nat) : Bool :=
  nums.isEmpty || decide (5 * nums.length ≤ nums.sum)

/-- Number of flip-losses: among the first three Lose-graded predictions, how
many bet against the streak value. -/
def flip_loss_count (v : Option Cat) (predictions : List Pred) : Nat :=
  let recent_losses := (predictions.filter (fun q => q.result == Res.Lose)).take 3
  (recent_losses.filter (fun q =>
    (v == some Cat.B && q.bs == PCat.cat Cat.S)
      || (v == some Cat.S && q.bs == PCat.cat Cat.B))).length

/-- The dragon risk gate: streak of length at least 6 and at least 2
flip-losses. -/
def dragon_gate (natural : List Cat) (predictions : List Pred) : Bool :=
  let s := count_streak natural
  decide (6 ≤ s.count) && decide (2 ≤ flip_loss_count s.value predictions)

/-- Branch selection of the engine: pattern lookup, then the fallback ladder
(short streak reversal, alternating, dominance, momentum). The dominance
tests of the source compare the float quotient bigs/len (0.5 for an empty
window) with 0.72 and 0.28; for len at most 30 the correctly rounded quotient
compares to 0.72 = 18/25 and 0.28 = 7/25 exactly as the rational value, which
gives the cross-multiplied integer tests below, guarded by nonemptiness so
that the empty window keeps the 0.5 default behaviour. The getD in the
momentum branch totalises an index access the source only reaches with a
nonempty sequence. -/
def pick_branch (natural : List Cat) : Cat × Logic :=
  match find_pattern natural with
  | some (L, key, pr) => (pr, Logic.pattern L key pr)
  | none =>
    let s := count_streak natural
    if 4 ≤ s.count ∧ s.count < 6 then
      ((if s.value == some Cat.B then Cat.S else Cat.B), Logic.short_streak s.count)
    else
      match detect_alternating (lastN natural 10) with
      | some alt => (alt, Logic.alternating)
      | none =>
        let window := lastN natural 30
        let bigs := (window.filter (fun c => c == Cat.B)).length
        if !window.isEmpty && decide (18 * window.length ≤ 25 * bigs) then
          (Cat.B, Logic.dominanceB)
        else if !window.isEmpty && decide (25 * bigs ≤ 7 * window.length) then
          (Cat.S, Logic.dominanceS)
        else
          ((natural.getLast?).getD Cat.B, Logic.momentum)

/-- Base confidence keyed by the branch that fired, reproducing the substring
dispatch of the source on the rationale string. -/
def base_conf_of : Logic → Nat
  | Logic.pattern L _ _ =>
    if L = 10 then 98 else if L = 9 then 97 else if L = 8 then 96
    else if L = 7 then 94 else if L = 6 then 90 else 60
  | Logic.dominanceB => 85
  | Logic.dominanceS => 85
  | Logic.momentum => 75
  | Logic.short_streak _ => 80
  | Logic.alternating => 82
  | Logic.statistical_fallback => 60
  | Logic.dragon_skip => 60

/-- Bias label keyed by the branch that fired, reproducing the substring
dispatch of the source. -/
def bias_of : Logic → Bias
  | Logic.dominanceB => Bias.MOMENTUM_BIAS
  | Logic.dominanceS => Bias.MOMENTUM_BIAS
  | Logic.momentum => Bias.MOMENTUM_BIAS
  | Logic.short_streak _ => Bias.REVERSAL_BIAS
  | Logic.pattern _ _ _ => Bias.PATTERN_BIAS
  | Logic.alternating => Bias.CHOP_BIAS
  | _ => Bias.NEUTRAL

/-- Loss-rate penalty test of the source: among the first ten graded
predictions, losses/len > 0.6 on the float quotient (0 when there are none).
For len at most 10 this agrees with the exact test 3*len < 5*losses, which is
also false for the empty case. -/
def loss_penalty (predictions : List Pred) : Bool :=
  let recent := (predictions.filter (fun q => q.result != Res.P)).take 10
  let losses := (recent.filter (fun q => q.result == Res.Lose)).length
  decide (3 * recent.length < 5 * losses)

/-- Confidence adjustment and clamp of the source. -/
def adjusted_conf (logic : Logic) (predictions : List Pred) : Nat :=
  let base := base_conf_of logic
  let base2 := if loss_penalty predictions then max 55 (base - 15) else base
  min 98 (max 55 base2)

/-- First element of maximal score, matching a stable descending sort by
score followed by taking the head: an element is kept unless a later one
scores strictly higher. -/
def pick_best : List (Nat × Nat) → Option (Nat × Nat)
  | [] => none
  | x :: xs =>
    match pick_best xs with
    | none => some x
    | some y => if y.2 > x.2 then some y else some x

/-- Numeric value selection of the source. The slices recent_numbers[-60:]
and recent_numbers[-10:] take the tail of the newest-first list exactly as
the source does. Python scores are 1 + count plus float bonuses 1.2 and 0.7;
distinct attainable scores differ by at least 0.1, far above float rounding
error, so the scores scaled by 10 compare exactly as integers. -/
def select_num (prediction : Cat) (recent_numbers : List Nat) (predictions : List Pred) : Nat :=
  let pool : List Nat := if prediction == Cat.B then [5, 6, 7, 8, 9] else [0, 1, 2, 3, 4]
  let tail60 := recent_numbers.drop (recent_numbers.length - 60)
  let last10 := recent_numbers.drop (recent_numbers.length - 10)
  let even_bias := decide (5 < (last10.filter (fun n => n % 2 == 0)).length)
  let score := fun (n : Nat) =>
    10 + 10 * (tail60.filter (fun m => m == n)).length
      + (if last10.contains n then 12 else 0)
      + (if (even_bias && n % 2 == 0) || (!even_bias && n % 2 == 1) then 7 else 0)
  let weighted := pool.map (fun n => (n, score n))
  let weighted2 :=
    match predictions.head? with
    | some p0 => if p0.result == Res.Lose then weighted.filter (fun q => !(some q.1 == p0.num)) else weighted
    | none => weighted
  match pick_best weighted2 with
  | some q => q.1
  | none => pool.headD 0

/-- Main path of the engine after the cold-start and dragon gates. -/
def engine_main (recent_numbers : List Nat) (natural : List Cat) (predictions : List Pred) : EngineOut :=
  let pl := pick_branch natural
  { bs := PCat.cat pl.1
    num := some (select_num pl.1 recent_numbers predictions)
    confidence := adjusted_conf pl.2 predictions
    logic := pl.2
    bias := bias_of pl.2 }

/-- The dragonx_engine of the source. Lists are newest-first; the natural
order sequence is their reversal. -/
def dragonx_engine (recent_numbers : List Nat) (recent_bs : List Cat) (predictions : List Pred) : EngineOut :=
  if recent_numbers.length < 10 then
    { bs := PCat.cat (if avg_ge5 recent_numbers then Cat.B else Cat.S)
      num := some 5
      confidence := 55
      logic := Logic.statistical_fallback
      bias := Bias.NEUTRAL }
  else if dragon_gate recent_bs.reverse predictions then
    { bs := PCat.skip
      num := none
      confidence := 0
      logic := Logic.dragon_skip
      bias := Bias.DRAGON_RISK }
  else
    engine_main recent_numbers recent_bs.reverse predictions

/-- One recorded observation (a trends entry of the source). -/
structure Trend where
  period : Nat
  num : Nat
  bs : Cat
  deriving DecidableEq

/-- The extracted content of one feed item: issueNumber and number. -/
structure FeedItem where
  period : Nat
  number : Nat
  deriving DecidableEq

/-- Outcome of the feed fetch and payload parsing. The err case covers a
network error, a timeout, a non-success status and an unparsable body; a
parsed response that is not a nonempty list is the ok [] case. All of these
occur in the source before any state is touched. -/
inductive FeedResult
  | err
  | ok (items : List FeedItem)
  deriving DecidableEq

/-- In-memory state: both logs are newest-first bounded lists. -/
structure AppState where
  trends : List Trend
  predictions : List Pred
  deriving DecidableEq

/-- Grading rule of the source: Jackpot if category and value both match, Win
if only the category matches, else Lose. -/
def grade_result (p0 : Pred) (bs : Cat) (number : Nat) : Res :=
  if p0.bs == PCat.cat bs && p0.num == some number then Res.Jackpot
  else if p0.bs == PCat.cat bs then Res.Win
  else Res.Lose

/-- Grading step of the job: if the most recent prediction has the period of
the incoming observation, set its result, with no check of a prior grade. -/
def graded_predictions (preds : List Pred) (bs : Cat) (number : Nat) (period : Nat) : List Pred :=
  match preds with
  | [] => []
  | p0 :: rest =>
    if p0.period == period then { p0 with result := grade_result p0 bs number } :: rest
    else p0 :: rest

/-- Append step of the job: if no prediction for the next period exists, run
the engine on the updated logs and prepend its output, keeping 200 entries. -/
def append_prediction (trends2 : List Trend) (preds2 : List Pred) (next_period : Nat) : List Pred :=
  if preds2.any (fun q => q.period == next_period) then preds2
  else
    let pr := dragonx_engine (trends2.map (fun t => t.num)) (trends2.map (fun t => t.bs)) preds2
    (Pred.mk next_period pr.bs pr.num pr.confidence pr.logic pr.bias Res.P :: preds2).take 200

/-- One invocation cycle of prediction_job as a state transformer: on a feed
failure or an empty payload the state is returned unchanged (the source
raises before mutating anything and the exception handler just logs);
otherwise the newest item is recorded, the front prediction is graded on a
period match, and a prediction for the next period is appended if absent. -/
def prediction_job_step (st : AppState) (feed : FeedResult) : AppState :=
  match feed with
  | FeedResult.err => st
  | FeedResult.ok [] => st
  | FeedResult.ok (latest :: _) =>
    let bs := get_bs latest.number
    let trends2 := (Trend.mk latest.period latest.number bs :: st.trends).take 1000
    let preds2 := graded_predictions st.predictions bs latest.number latest.period
    AppState.mk trends2 (append_prediction trends2 preds2 (latest.period + 1))

/-- A graded Lose prediction that bet on S, used as concrete input below. -/
def loseS : Pred :=
  Pred.mk 100 (PCat.cat Cat.S) (some 0) 60 Logic.momentum Bias.NEUTRAL Res.Lose

/-- State after three cycles from an empty state with feed periods 101, 100,
101: the front prediction has period 101 and is graded Win, while a pending
prediction for period 102 sits behind it, so no new prediction is appended on
a further period-101 item. -/
def c7_state3 : AppState :=
  prediction_job_step
    (prediction_job_step
      (prediction_job_step (AppState.mk [] []) (FeedResult.ok [FeedItem.mk 101 9]))
      (FeedResult.ok [FeedItem.mk 100 9]))
    (FeedResult.ok [FeedItem.mk 101 7])

/-! Helper lemmas. -/

/-- The element returned by pick_best is an element of the input list. -/
theorem pick_best_mem : ∀ (l : List (Nat × Nat)) (q : Nat × Nat), pick_best l = some q → q ∈ l := by
  intro l
  induction l with
  | nil => intro q h; simp [pick_best] at h
  | cons x xs ih =>
    intro q h
    simp only [pick_best] at h
    split at h
    next => cases h; exact List.mem_cons_self x xs
    next y hx =>
      split at h
      · injection h with h2
        subst h2
        exact List.mem_cons_of_mem x (ih _ hx)
      · cases h
        exact List.mem_cons_self x xs

/-- The selected numeric value is an element of the candidate pool of the
predicted category. -/
theorem select_num_mem (c : Cat) (recent_numbers : List Nat) (predictions : List Pred) :
    select_num c recent_numbers predictions ∈
      (if c == Cat.B then ([5, 6, 7, 8, 9] : List Nat) else [0, 1, 2, 3, 4]) := by
  unfold select_num
  set pool : List Nat := if c == Cat.B then ([5, 6, 7, 8, 9] : List Nat) else [0, 1, 2, 3, 4] with hpool
  simp only
  set score := fun (n : Nat) =>
    10 + 10 * ((recent_numbers.drop (recent_numbers.length - 60)).filter (fun m => m == n)).length
      + (if (recent_numbers.drop (recent_numbers.length - 10)).contains n then 12 else 0)
      + (if (decide (5 < ((recent_numbers.drop (recent_numbers.length - 10)).filter
            (fun n => n % 2 == 0)).length) && n % 2 == 0)
          || (!decide (5 < ((recent_numbers.drop (recent_numbers.length - 10)).filter
            (fun n => n % 2 == 0)).length) && n % 2 == 1) then 7 else 0) with hscore
  have hsub : ∀ w : List (Nat × Nat), (∀ q ∈ w, q ∈ pool.map (fun n => (n, score n))) →
      ∀ r, pick_best w = some r → r.1 ∈ pool := by
    intro w hw r hr
    have hmem := hw r (pick_best_mem w r hr)
    rcases List.mem_map.mp hmem with ⟨n, hn, he⟩
    have : r.1 = n := by rw [← he]
    rw [this]
    exact hn
  have hhead : pool.headD 0 ∈ pool := by
    rw [hpool]
    by_cases hb : c == Cat.B
    · rw [if_pos hb]; decide
    · rw [if_neg hb]; decide
  cases hh : predictions.head? with
  | none =>
    simp only [hh]
    cases hpb : pick_best (pool.map (fun n => (n, score n))) with
    | none => exact hhead
    | some r => exact hsub _ (fun q hq => hq) r hpb
  | some p0 =>
    simp only [hh]
    by_cases hl : p0.result == Res.Lose
    · rw [if_pos hl]
      cases hpb : pick_best ((pool.map (fun n => (n, score n))).filter (fun q => !(some q.1 == p0.num))) with
      | none => exact hhead
      | some r => exact hsub _ (fun q hq => List.mem_of_mem_filter hq) r hpb
    · rw [if_neg hl]
      cases hpb : pick_best (pool.map (fun n => (n, score n))) with
      | none => exact hhead
      | some r => exact hsub _ (fun q hq => hq) r hpb

/-- The adjusted confidence is clamped between 55 and 98. -/
theorem adjusted_conf_bounds (logic : Logic) (predictions : List Pred) :
    55 ≤ adjusted_conf logic predictions ∧ adjusted_conf logic predictions ≤ 98 := by
  have h : adjusted_conf logic predictions
      = min 98 (max 55 (if loss_penalty predictions then max 55 (base_conf_of logic - 15)
          else base_conf_of logic)) := rfl
  rw [h]
  split <;> omega

/-- A pattern length with no catalogue entries can never match. -/
theorem match_at_none_of_empty (natural : List Cat) (L : Nat) (h : patterns_of_len L = []) :
    match_at natural L = none := by
  unfold match_at
  split
  · rw [h]
    simp
  · rfl

/-- Shape of a successful lookup at one length: the matched key is the
natural-order suffix of that length, it is a catalogue entry, and the
predicted category is the stored value for it. -/
theorem match_at_some (natural : List Cat) (L L2 : Nat) (key : List Cat) (pr : Cat)
    (h : match_at natural L = some (L2, key, pr)) :
    L2 = L ∧ key = lastN natural L ∧ pr = pattern_lookup_val key ∧
      lastN natural L ∈ patterns_of_len L := by
  unfold match_at at h
  split at h
  · split at h
    next hmem =>
      simp only [Option.some.injEq, Prod.mk.injEq] at h
      obtain ⟨h1, h2, h3⟩ := h
      refine ⟨h1.symm, h2.symm, ?_, hmem⟩
      rw [← h3, ← h2]
    next => cases h
  · cases h

/-- Any successful pattern lookup goes through match_at at one of the lengths
10 down to 5. -/
theorem find_pattern_cases (natural : List Cat) (r : Nat × List Cat × Cat)
    (h : find_pattern natural = some r) :
    match_at natural 10 = some r ∨ match_at natural 9 = some r ∨ match_at natural 8 = some r
      ∨ match_at natural 7 = some r ∨ match_at natural 6 = some r ∨ match_at natural 5 = some r := by
  unfold find_pattern at h
  split at h
  next hm => exact Or.inl (by rw [hm, h])
  next =>
  split at h
  next hm => exact Or.inr (Or.inl (by rw [hm, h]))
  next =>
  split at h
  next hm => exact Or.inr (Or.inr (Or.inl (by rw [hm, h])))
  next =>
  split at h
  next hm => exact Or.inr (Or.inr (Or.inr (Or.inl (by rw [hm, h]))))
  next =>
  split at h
  next hm => exact Or.inr (Or.inr (Or.inr (Or.inr (Or.inl (by rw [hm, h])))))
  next => exact Or.inr (Or.inr (Or.inr (Or.inr (Or.inr h))))

/-! Claim theorems. -/

/-- The cold-start test agrees with the rational mean test on a nonempty
history. -/
theorem avg_ge5_iff (nums : List Nat) (hne : nums ≠ []) :
    avg_ge5 nums = true ↔ (5 : ℚ) ≤ (nums.sum : ℚ) / (nums.length : ℚ) := by
  have hlen : 0 < nums.length := List.length_pos.mpr hne
  have hie : nums.isEmpty = false := by
    cases nums with
    | nil => exact absurd rfl hne
    | cons a l => rfl
  unfold avg_ge5
  rw [hie]
  simp only [Bool.false_or, decide_eq_true_eq]
  rw [le_div_iff₀ (by exact_mod_cast hlen)]
  constructor
  · intro h2
    exact_mod_cast h2
  · intro h2
    exact_mod_cast h2

/-- C1: for every invocation with fewer than 10 observations in history the
output is exactly the statistical fallback: suggested value 5, confidence 55,
statistical-fallback rationale, neutral bias, and, for a nonempty history,
predicted category B exactly when the mean of the numeric values is at least
5, else S. Nothing else of the engine runs on this path. -/
theorem C1_cold_start_fallback (nums : List Nat) (bs : List Cat) (preds : List Pred)
    (h : nums.length < 10) :
    (dragonx_engine nums bs preds).num = some 5
    ∧ (dragonx_engine nums bs preds).confidence = 55
    ∧ (dragonx_engine nums bs preds).logic = Logic.statistical_fallback
    ∧ (dragonx_engine nums bs preds).bias = Bias.NEUTRAL
    ∧ (nums ≠ [] →
        ((dragonx_engine nums bs preds).bs = PCat.cat Cat.B
          ↔ (5 : ℚ) ≤ (nums.sum : ℚ) / (nums.length : ℚ)))
    ∧ (nums ≠ [] →
        ((dragonx_engine nums bs preds).bs = PCat.cat Cat.S
          ↔ (nums.sum : ℚ) / (nums.length : ℚ) < 5)) := by
  have he : dragonx_engine nums bs preds
      = { bs := PCat.cat (if avg_ge5 nums then Cat.B else Cat.S), num := some 5,
          confidence := 55, logic := Logic.statistical_fallback, bias := Bias.NEUTRAL } := by
    unfold dragonx_engine
    rw [if_pos h]
  rw [he]
  refine ⟨rfl, rfl, rfl, rfl, ?_, ?_⟩ <;> intro hne
  · by_cases hb : avg_ge5 nums = true
    · constructor
      · intro hx
        exact (avg_ge5_iff nums hne).mp hb
      · intro hx
        simp [hb]
    · have hb2 : avg_ge5 nums = false := Bool.eq_false_iff.mpr hb
      constructor
      · intro hx
        simp [hb2] at hx
      · intro hc
        exact absurd ((avg_ge5_iff nums hne).mpr hc) (by simp [hb2])
  · by_cases hb : avg_ge5 nums = true
    · constructor
      · intro hx
        simp [hb] at hx
      · intro hc
        exfalso
        have h5 := (avg_ge5_iff nums hne).mp hb
        linarith
    · have hb2 : avg_ge5 nums = false := Bool.eq_false_iff.mpr hb
      constructor
      · intro hx
        by_contra hc2
        push_neg at hc2
        exact absurd ((avg_ge5_iff nums hne).mpr hc2) (by simp [hb2])
      · intro hc
        simp [hb2]

/-- Witness for C1 at a concrete two-element history. -/
theorem C1_cold_start_fallback_witness :
    ([7, 7] : List Nat).length < 10
    ∧ ((dragonx_engine [7, 7] [Cat.B, Cat.B] []).num = some 5
      ∧ (dragonx_engine [7, 7] [Cat.B, Cat.B] []).confidence = 55
      ∧ (dragonx_engine [7, 7] [Cat.B, Cat.B] []).logic = Logic.statistical_fallback
      ∧ (dragonx_engine [7, 7] [Cat.B, Cat.B] []).bias = Bias.NEUTRAL
      ∧ (([7, 7] : List Nat) ≠ [] →
          ((dragonx_engine [7, 7] [Cat.B, Cat.B] []).bs = PCat.cat Cat.B
            ↔ (5 : ℚ) ≤ ((([7, 7] : List Nat).sum : ℚ) / (([7, 7] : List Nat).length : ℚ))))
      ∧ (([7, 7] : List Nat) ≠ [] →
          ((dragonx_engine [7, 7] [Cat.B, Cat.B] []).bs = PCat.cat Cat.S
            ↔ ((([7, 7] : List Nat).sum : ℚ) / (([7, 7] : List Nat).length : ℚ) < 5)))) :=
  ⟨by decide, C1_cold_start_fallback [7, 7] [Cat.B, Cat.B] [] (by decide)⟩

/-- C2 counterexample: a history of six identical categories ends in a streak
of length 6 and two flip-losses are on file, yet the engine returns the
cold-start fallback (category B, confidence 55) rather than SKIP, because the
cold-start gate fires before the dragon-risk gate. -/
theorem C2_counterexample :
    6 ≤ (count_streak ([Cat.B, Cat.B, Cat.B, Cat.B, Cat.B, Cat.B] : List Cat).reverse).count
    ∧ 2 ≤ flip_loss_count
        (count_streak ([Cat.B, Cat.B, Cat.B, Cat.B, Cat.B, Cat.B] : List Cat).reverse).value
        [loseS, loseS]
    ∧ (dragonx_engine [5, 5, 5, 5, 5, 5] [Cat.B, Cat.B, Cat.B, Cat.B, Cat.B, Cat.B]
        [loseS, loseS]).bs = PCat.cat Cat.B
    ∧ (dragonx_engine [5, 5, 5, 5, 5, 5] [Cat.B, Cat.B, Cat.B, Cat.B, Cat.B, Cat.B]
        [loseS, loseS]).confidence = 55 := by decide

/-- C2 (amended: the history must also contain at least 10 observations, so
that the cold-start gate does not preempt): when the natural-order sequence
ends in a streak of length at least 6 and at least 2 of the 3 most recent
graded-Lose predictions bet against the streak, the engine short-circuits to
the SKIP verdict: no suggested value, confidence 0, dragon rationale and
dragon-risk bias. -/
theorem C2_dragon_skip (nums : List Nat) (bs : List Cat) (preds : List Pred)
    (h1 : 10 ≤ nums.length)
    (h2 : 6 ≤ (count_streak bs.reverse).count)
    (h3 : 2 ≤ flip_loss_count (count_streak bs.reverse).value preds) :
    dragonx_engine nums bs preds
      = { bs := PCat.skip, num := none, confidence := 0,
          logic := Logic.dragon_skip, bias := Bias.DRAGON_RISK } := by
  have hd : dragon_gate bs.reverse preds = true := by
    show (decide (6 ≤ (count_streak bs.reverse).count)
      && decide (2 ≤ flip_loss_count (count_streak bs.reverse).value preds)) = true
    rw [decide_eq_true h2, decide_eq_true h3]
    rfl
  unfold dragonx_engine
  rw [if_neg (by omega), if_pos hd]

/-- Witness for C2 as amended, at a ten-observation all-B history with two
recorded flip-losses. -/
theorem C2_dragon_skip_witness :
    10 ≤ ([5, 5, 5, 5, 5, 5, 5, 5, 5, 5] : List Nat).length
    ∧ 6 ≤ (count_streak ([Cat.B, Cat.B, Cat.B, Cat.B, Cat.B, Cat.B, Cat.B, Cat.B, Cat.B,
        Cat.B] : List Cat).reverse).count
    ∧ 2 ≤ flip_loss_count (count_streak ([Cat.B, Cat.B, Cat.B, Cat.B, Cat.B, Cat.B, Cat.B,
        Cat.B, Cat.B, Cat.B] : List Cat).reverse).value [loseS, loseS]
    ∧ dragonx_engine [5, 5, 5, 5, 5, 5, 5, 5, 5, 5]
        [Cat.B, Cat.B, Cat.B, Cat.B, Cat.B, Cat.B, Cat.B, Cat.B, Cat.B, Cat.B] [loseS, loseS]
      = { bs := PCat.skip, num := none, confidence := 0,
          logic := Logic.dragon_skip, bias := Bias.DRAGON_RISK } :=
  ⟨by decide, by decide, by decide,
    C2_dragon_skip _ _ _ (by decide) (by decide) (by decide)⟩

/-- C4 counterexample: a dragon-risk SKIP invocation returns confidence 0,
outside the interval between 55 and 98. -/
theorem C4_counterexample :
    (dragonx_engine [5, 5, 5, 5, 5, 5, 5, 5, 5, 5]
        [Cat.B, Cat.B, Cat.B, Cat.B, Cat.B, Cat.B, Cat.B, Cat.B, Cat.B, Cat.B]
        [loseS, loseS]).confidence = 0
    ∧ ¬ 55 ≤ (dragonx_engine [5, 5, 5, 5, 5, 5, 5, 5, 5, 5]
        [Cat.B, Cat.B, Cat.B, Cat.B, Cat.B, Cat.B, Cat.B, Cat.B, Cat.B, Cat.B]
        [loseS, loseS]).confidence := by decide

/-- C4 (amended: except for the dragon-risk SKIP verdict, which carries
confidence 0): every returned confidence lies between 55 and 98, whatever the
loss-rate adjustment does. -/
theorem C4_confidence_range (nums : List Nat) (bs : List Cat) (preds : List Pred)
    (h : (dragonx_engine nums bs preds).bs ≠ PCat.skip) :
    55 ≤ (dragonx_engine nums bs preds).confidence
    ∧ (dragonx_engine nums bs preds).confidence ≤ 98 := by
  by_cases h1 : nums.length < 10
  · have he : (dragonx_engine nums bs preds).confidence = 55 := by
      unfold dragonx_engine
      rw [if_pos h1]
    rw [he]
    exact ⟨le_refl 55, by norm_num⟩
  · by_cases h2 : dragon_gate bs.reverse preds = true
    · exfalso
      apply h
      unfold dragonx_engine
      rw [if_neg h1, if_pos h2]
    · have he : dragonx_engine nums bs preds = engine_main nums bs.reverse preds := by
        unfold dragonx_engine
        rw [if_neg h1, if_neg h2]
      rw [he]
      exact adjusted_conf_bounds (pick_branch bs.reverse).2 preds

/-- Witness for C4 as amended, at an empty history (cold-start output,
confidence 55). -/
theorem C4_confidence_range_witness :
    (dragonx_engine [] [] []).bs ≠ PCat.skip
    ∧ (55 ≤ (dragonx_engine [] [] []).confidence
      ∧ (dragonx_engine [] [] []).confidence ≤ 98) :=
  ⟨by decide, C4_confidence_range [] [] [] (by decide)⟩

/-- C3 counterexample: on a ten-observation history whose natural order ends
in S S B B S S B, both the 6-length suffix S B B S S B and the 5-length
suffix B B S S B are catalogue entries, yet the engine selects the 7-length
entry S S B B S S B, with base confidence 94, not 90, because lookup starts
at the longest length. -/
theorem C3_counterexample :
    lastN ([Cat.B, Cat.S, Cat.S, Cat.B, Cat.B, Cat.S, Cat.S, Cat.B, Cat.B, Cat.B] :
        List Cat).reverse 6 ∈ patterns_of_len 6
    ∧ lastN ([Cat.B, Cat.S, Cat.S, Cat.B, Cat.B, Cat.S, Cat.S, Cat.B, Cat.B, Cat.B] :
        List Cat).reverse 5 ∈ patterns_of_len 5
    ∧ (dragonx_engine [8, 4, 0, 5, 6, 2, 1, 7, 8, 9]
        [Cat.B, Cat.S, Cat.S, Cat.B, Cat.B, Cat.S, Cat.S, Cat.B, Cat.B, Cat.B] []).logic
      = Logic.pattern 7 [Cat.S, Cat.S, Cat.B, Cat.B, Cat.S, Cat.S, Cat.B] Cat.B
    ∧ (dragonx_engine [8, 4, 0, 5, 6, 2, 1, 7, 8, 9]
        [Cat.B, Cat.S, Cat.S, Cat.B, Cat.B, Cat.S, Cat.S, Cat.B, Cat.B, Cat.B] []).confidence
      = 94 := by decide

/-- C3 (amended: provided additionally that no longer suffix matches — the
catalogue has no entries of lengths 8 to 10, so it suffices that the 7-length
suffix is no entry — and that the engine reaches the lookup, that is, at
least 10 observations and the dragon gate closed): when both the 6-length
and the 5-length natural-order suffixes are catalogue entries, the 6-length
entry wins; its stored category is predicted and the base confidence is
90. -/
theorem C3_longest_match (nums : List Nat) (bs : List Cat) (preds : List Pred)
    (h1 : 10 ≤ nums.length) (h0 : 10 ≤ bs.length)
    (hd : dragon_gate bs.reverse preds = false)
    (h7 : match_at bs.reverse 7 = none)
    (h6 : lastN bs.reverse 6 ∈ patterns_of_len 6)
    (_h5 : lastN bs.reverse 5 ∈ patterns_of_len 5) :
    (dragonx_engine nums bs preds).logic
      = Logic.pattern 6 (lastN bs.reverse 6) (pattern_lookup_val (lastN bs.reverse 6))
    ∧ (dragonx_engine nums bs preds).bs
      = PCat.cat (pattern_lookup_val (lastN bs.reverse 6))
    ∧ base_conf_of (dragonx_engine nums bs preds).logic = 90 := by
  have hlen : 6 ≤ bs.reverse.length := by
    rw [List.length_reverse]
    omega
  have hm6 : match_at bs.reverse 6
      = some (6, lastN bs.reverse 6, pattern_lookup_val (lastN bs.reverse 6)) := by
    unfold match_at
    rw [if_pos hlen, if_pos h6]
  have hfp : find_pattern bs.reverse
      = some (6, lastN bs.reverse 6, pattern_lookup_val (lastN bs.reverse 6)) := by
    unfold find_pattern
    rw [match_at_none_of_empty bs.reverse 10 (by decide),
      match_at_none_of_empty bs.reverse 9 (by decide),
      match_at_none_of_empty bs.reverse 8 (by decide), h7, hm6]
  have hpb : pick_branch bs.reverse
      = (pattern_lookup_val (lastN bs.reverse 6),
        Logic.pattern 6 (lastN bs.reverse 6) (pattern_lookup_val (lastN bs.reverse 6))) := by
    unfold pick_branch
    rw [hfp]
  have he : dragonx_engine nums bs preds = engine_main nums bs.reverse preds := by
    unfold dragonx_engine
    rw [if_neg (by omega), if_neg (by simp [hd])]
  rw [he]
  show (engine_main nums bs.reverse preds).logic = _
    ∧ (engine_main nums bs.reverse preds).bs = _
    ∧ base_conf_of (engine_main nums bs.reverse preds).logic = 90
  have hl : (engine_main nums bs.reverse preds).logic
      = Logic.pattern 6 (lastN bs.reverse 6) (pattern_lookup_val (lastN bs.reverse 6)) := by
    show (pick_branch bs.reverse).2 = _
    rw [hpb]
  have hbs : (engine_main nums bs.reverse preds).bs
      = PCat.cat (pattern_lookup_val (lastN bs.reverse 6)) := by
    show PCat.cat (pick_branch bs.reverse).1 = _
    rw [hpb]
  refine ⟨hl, hbs, ?_⟩
  rw [hl]
  rfl

/-- Witness for C3 as amended: natural order B B B B S S S B S S, whose
6-length suffix S S S B S S and 5-length suffix S S B S S are catalogue
entries while the 7-length suffix B S S S B S S is not. -/
theorem C3_longest_match_witness :
    (10 ≤ ([4, 3, 5, 2, 1, 0, 6, 9, 8, 7] : List Nat).length
      ∧ 10 ≤ ([Cat.S, Cat.S, Cat.B, Cat.S, Cat.S, Cat.S, Cat.B, Cat.B, Cat.B, Cat.B] :
          List Cat).length
      ∧ dragon_gate ([Cat.S, Cat.S, Cat.B, Cat.S, Cat.S, Cat.S, Cat.B, Cat.B, Cat.B, Cat.B] :
          List Cat).reverse [] = false
      ∧ match_at ([Cat.S, Cat.S, Cat.B, Cat.S, Cat.S, Cat.S, Cat.B, Cat.B, Cat.B, Cat.B] :
          List Cat).reverse 7 = none)
    ∧ ((dragonx_engine [4, 3, 5, 2, 1, 0, 6, 9, 8, 7]
          [Cat.S, Cat.S, Cat.B, Cat.S, Cat.S, Cat.S, Cat.B, Cat.B, Cat.B, Cat.B] []).logic
        = Logic.pattern 6
            (lastN ([Cat.S, Cat.S, Cat.B, Cat.S, Cat.S, Cat.S, Cat.B, Cat.B, Cat.B, Cat.B] :
              List Cat).reverse 6)
            (pattern_lookup_val
              (lastN ([Cat.S, Cat.S, Cat.B, Cat.S, Cat.S, Cat.S, Cat.B, Cat.B, Cat.B, Cat.B] :
                List Cat).reverse 6))
      ∧ (dragonx_engine [4, 3, 5, 2, 1, 0, 6, 9, 8, 7]
          [Cat.S, Cat.S, Cat.B, Cat.S, Cat.S, Cat.S, Cat.B, Cat.B, Cat.B, Cat.B] []).bs
        = PCat.cat (pattern_lookup_val
            (lastN ([Cat.S, Cat.S, Cat.B, Cat.S, Cat.S, Cat.S, Cat.B, Cat.B, Cat.B, Cat.B] :
              List Cat).reverse 6))
      ∧ base_conf_of (dragonx_engine [4, 3, 5, 2, 1, 0, 6, 9, 8, 7]
          [Cat.S, Cat.S, Cat.B, Cat.S, Cat.S, Cat.S, Cat.B, Cat.B, Cat.B, Cat.B] []).logic
        = 90) :=
  ⟨⟨by decide, by decide, by decide, by decide⟩,
    C3_longest_match _ _ _ (by decide) (by decide) (by decide) (by decide)
      (by decide) (by decide)⟩

/-- C5 counterexample: with the single observation 0 the cold-start fallback
predicts category S yet suggests the value 5, which is not in the S pool 0
to 4. -/
theorem C5_counterexample :
    (dragonx_engine [0] [Cat.S] []).bs = PCat.cat Cat.S
    ∧ (dragonx_engine [0] [Cat.S] []).num = some 5
    ∧ (5 : Nat) ∉ ([0, 1, 2, 3, 4] : List Nat) := by decide

/-- C5 (amended: for invocations with at least 10 observations, so excluding
the cold-start fallback, whose suggested value is always 5 whatever the
category): any prediction with category B suggests a value between 5 and 9,
and any prediction with category S suggests a value between 0 and 4; the
SKIP verdict carries no value. -/
theorem C5_num_in_pool (nums : List Nat) (bs : List Cat) (preds : List Pred)
    (h1 : 10 ≤ nums.length) :
    ((dragonx_engine nums bs preds).bs = PCat.cat Cat.B →
      ∃ n, (dragonx_engine nums bs preds).num = some n ∧ 5 ≤ n ∧ n ≤ 9)
    ∧ ((dragonx_engine nums bs preds).bs = PCat.cat Cat.S →
      ∃ n, (dragonx_engine nums bs preds).num = some n ∧ n ≤ 4)
    ∧ ((dragonx_engine nums bs preds).bs = PCat.skip →
      (dragonx_engine nums bs preds).num = none) := by
  by_cases h2 : dragon_gate bs.reverse preds = true
  · have he : dragonx_engine nums bs preds
        = { bs := PCat.skip, num := none, confidence := 0,
            logic := Logic.dragon_skip, bias := Bias.DRAGON_RISK } := by
      unfold dragonx_engine
      rw [if_neg (by omega), if_pos h2]
    rw [he]
    refine ⟨fun hx => ?_, fun hx => ?_, fun hx => rfl⟩
    · cases hx
    · cases hx
  · have he : dragonx_engine nums bs preds = engine_main nums bs.reverse preds := by
      unfold dragonx_engine
      rw [if_neg (by omega), if_neg h2]
    rw [he]
    refine ⟨fun hx => ?_, fun hx => ?_, fun hx => ?_⟩
    · have hx2 : PCat.cat (pick_branch bs.reverse).1 = PCat.cat Cat.B := hx
      have hc : (pick_branch bs.reverse).1 = Cat.B := by
        cases hcc : (pick_branch bs.reverse).1
        · rfl
        · rw [hcc] at hx2
          exact absurd hx2 (by decide)
      refine ⟨select_num Cat.B nums preds, ?_, ?_⟩
      · show some (select_num (pick_branch bs.reverse).1 nums preds) = _
        rw [hc]
      · have hmem5 : select_num Cat.B nums preds ∈ ([5, 6, 7, 8, 9] : List Nat) := by
          simpa using select_num_mem Cat.B nums preds
        simp only [List.mem_cons, List.not_mem_nil, or_false] at hmem5
        rcases hmem5 with h | h | h | h | h <;> omega
    · have hx2 : PCat.cat (pick_branch bs.reverse).1 = PCat.cat Cat.S := hx
      have hc : (pick_branch bs.reverse).1 = Cat.S := by
        cases hcc : (pick_branch bs.reverse).1
        · rw [hcc] at hx2
          exact absurd hx2 (by decide)
        · rfl
      refine ⟨select_num Cat.S nums preds, ?_, ?_⟩
      · show some (select_num (pick_branch bs.reverse).1 nums preds) = _
        rw [hc]
      · have hmem0 : select_num Cat.S nums preds ∈ ([0, 1, 2, 3, 4] : List Nat) := by
          simpa using select_num_mem Cat.S nums preds
        simp only [List.mem_cons, List.not_mem_nil, or_false] at hmem0
        rcases hmem0 with h | h | h | h | h <;> omega
    · exact (PCat.noConfusion hx)

/-- Witness for C5 as amended at a ten-observation history with a pattern
match predicting B. -/
theorem C5_num_in_pool_witness :
    10 ≤ ([4, 3, 5, 2, 1, 0, 6, 9, 8, 7] : List Nat).length
    ∧ (((dragonx_engine [4, 3, 5, 2, 1, 0, 6, 9, 8, 7]
          [Cat.S, Cat.S, Cat.B, Cat.S, Cat.S, Cat.S, Cat.B, Cat.B, Cat.B, Cat.B] []).bs
            = PCat.cat Cat.B →
        ∃ n, (dragonx_engine [4, 3, 5, 2, 1, 0, 6, 9, 8, 7]
          [Cat.S, Cat.S, Cat.B, Cat.S, Cat.S, Cat.S, Cat.B, Cat.B, Cat.B, Cat.B] []).num
            = some n ∧ 5 ≤ n ∧ n ≤ 9)
      ∧ ((dragonx_engine [4, 3, 5, 2, 1, 0, 6, 9, 8, 7]
          [Cat.S, Cat.S, Cat.B, Cat.S, Cat.S, Cat.S, Cat.B, Cat.B, Cat.B, Cat.B] []).bs
            = PCat.cat Cat.S →
        ∃ n, (dragonx_engine [4, 3, 5, 2, 1, 0, 6, 9, 8, 7]
          [Cat.S, Cat.S, Cat.B, Cat.S, Cat.S, Cat.S, Cat.B, Cat.B, Cat.B, Cat.B] []).num
            = some n ∧ n ≤ 4)
      ∧ ((dragonx_engine [4, 3, 5, 2, 1, 0, 6, 9, 8, 7]
          [Cat.S, Cat.S, Cat.B, Cat.S, Cat.S, Cat.S, Cat.B, Cat.B, Cat.B, Cat.B] []).bs
            = PCat.skip →
        (dragonx_engine [4, 3, 5, 2, 1, 0, 6, 9, 8, 7]
          [Cat.S, Cat.S, Cat.B, Cat.S, Cat.S, Cat.S, Cat.B, Cat.B, Cat.B, Cat.B] []).num
            = none)) :=
  ⟨by decide, C5_num_in_pool _ _ _ (by decide)⟩

/-- C9: whatever entry the pattern lookup returns, its predicted category is
the opposite of the first element of the matched sequence. -/
theorem C9_first_element_flip (natural : List Cat) (L : Nat) (key : List Cat) (pr c : Cat)
    (h : find_pattern natural = some (L, key, pr)) (hc : key.head? = some c) :
    pr = flip c := by
  have hval : pr = pattern_lookup_val key := by
    rcases find_pattern_cases natural (L, key, pr) h with
      hm | hm | hm | hm | hm | hm
    all_goals exact (match_at_some natural _ L key pr hm).2.2.1
  rw [hval]
  unfold pattern_lookup_val
  rw [hc]
  cases c
  · rfl
  · rfl

/-- Witness for C9 at a concrete lookup that matches the 6-length entry
S S S B S S, whose first element S flips to the prediction B. -/
theorem C9_first_element_flip_witness :
    find_pattern ([Cat.S, Cat.S, Cat.B, Cat.S, Cat.S, Cat.S, Cat.B, Cat.B, Cat.B, Cat.B] :
        List Cat).reverse
      = some (6, [Cat.S, Cat.S, Cat.S, Cat.B, Cat.S, Cat.S], Cat.B)
    ∧ ([Cat.S, Cat.S, Cat.S, Cat.B, Cat.S, Cat.S] : List Cat).head? = some Cat.S
    ∧ Cat.B = flip Cat.S :=
  ⟨by decide, by decide,
    C9_first_element_flip
      ([Cat.S, Cat.S, Cat.B, Cat.S, Cat.S, Cat.S, Cat.B, Cat.B, Cat.B, Cat.B] :
        List Cat).reverse
      6 [Cat.S, Cat.S, Cat.S, Cat.B, Cat.S, Cat.S] Cat.B Cat.S (by decide) (by decide)⟩

/-- C10: when the pattern lookup succeeds at length 5, the confidence scale
(which only covers lengths 6 to 10) does not apply, the base confidence stays
at the default 60, and absent the loss-rate penalty the returned confidence
is 60 (the engine must reach the lookup: at least 10 observations and the
dragon gate closed). -/
theorem C10_five_digit_default_conf (nums : List Nat) (bs : List Cat) (preds : List Pred)
    (key : List Cat) (pr : Cat)
    (h1 : 10 ≤ nums.length)
    (hd : dragon_gate bs.reverse preds = false)
    (hfp : find_pattern bs.reverse = some (5, key, pr))
    (hlr : loss_penalty preds = false) :
    (dragonx_engine nums bs preds).confidence = 60
    ∧ (dragonx_engine nums bs preds).logic = Logic.pattern 5 key pr
    ∧ base_conf_of (dragonx_engine nums bs preds).logic = 60 := by
  have he : dragonx_engine nums bs preds = engine_main nums bs.reverse preds := by
    unfold dragonx_engine
    rw [if_neg (by omega), if_neg (by simp [hd])]
  have hpb : pick_branch bs.reverse = (pr, Logic.pattern 5 key pr) := by
    unfold pick_branch
    rw [hfp]
  have hl : (dragonx_engine nums bs preds).logic = Logic.pattern 5 key pr := by
    rw [he]
    show (pick_branch bs.reverse).2 = _
    rw [hpb]
  refine ⟨?_, hl, by rw [hl]; rfl⟩
  rw [he]
  show adjusted_conf (pick_branch bs.reverse).2 preds = 60
  rw [hpb]
  show adjusted_conf (Logic.pattern 5 key pr) preds = 60
  unfold adjusted_conf
  rw [hlr]
  rfl

/-- Witness for C10 at a history whose only catalogue suffix is the 5-length
entry B S B B S. -/
theorem C10_five_digit_default_conf_witness :
    (10 ≤ ([2, 9, 8, 1, 5, 6, 0, 7, 8, 9] : List Nat).length
      ∧ dragon_gate ([Cat.S, Cat.B, Cat.B, Cat.S, Cat.B, Cat.B, Cat.S, Cat.B, Cat.B, Cat.B] :
          List Cat).reverse [] = false
      ∧ find_pattern ([Cat.S, Cat.B, Cat.B, Cat.S, Cat.B, Cat.B, Cat.S, Cat.B, Cat.B, Cat.B] :
          List Cat).reverse = some (5, [Cat.B, Cat.S, Cat.B, Cat.B, Cat.S], Cat.S)
      ∧ loss_penalty [] = false)
    ∧ ((dragonx_engine [2, 9, 8, 1, 5, 6, 0, 7, 8, 9]
          [Cat.S, Cat.B, Cat.B, Cat.S, Cat.B, Cat.B, Cat.S, Cat.B, Cat.B, Cat.B] []).confidence
        = 60
      ∧ (dragonx_engine [2, 9, 8, 1, 5, 6, 0, 7, 8, 9]
          [Cat.S, Cat.B, Cat.B, Cat.S, Cat.B, Cat.B, Cat.S, Cat.B, Cat.B, Cat.B] []).logic
        = Logic.pattern 5 [Cat.B, Cat.S, Cat.B, Cat.B, Cat.S] Cat.S
      ∧ base_conf_of (dragonx_engine [2, 9, 8, 1, 5, 6, 0, 7, 8, 9]
          [Cat.S, Cat.B, Cat.B, Cat.S, Cat.B, Cat.B, Cat.S, Cat.B, Cat.B, Cat.B] []).logic
        = 60) :=
  ⟨⟨by decide, by decide, by decide, by decide⟩,
    C10_five_digit_default_conf _ _ _ _ _ (by decide) (by decide) (by decide) (by decide)⟩

/-- When a prediction for the next period already exists or is freshly
prepended, a front prediction whose period matches the incoming one is still
found first by a search for that period. -/
theorem append_prediction_find_head (t : List Trend) (p0 : Pred) (rest : List Pred) (q : Nat)
    (hp : p0.period = q) :
    List.find? (fun x => x.period == q) (append_prediction t (p0 :: rest) (q + 1))
      = some p0 := by
  unfold append_prediction
  split
  · exact List.find?_cons_of_pos _ (by simp [hp])
  · have ht : ∀ pr : EngineOut,
        (Pred.mk (q + 1) pr.bs pr.num pr.confidence pr.logic pr.bias Res.P :: p0 :: rest).take 200
          = Pred.mk (q + 1) pr.bs pr.num pr.confidence pr.logic pr.bias Res.P
              :: (p0 :: rest).take 199 := fun pr => rfl
    rw [ht]
    rw [List.find?_cons_of_neg _ (by simp)]
    have ht2 : (p0 :: rest).take 199 = p0 :: rest.take 198 := rfl
    rw [ht2]
    exact List.find?_cons_of_pos _ (by simp [hp])

/-- C6: when the arriving observation has the same period as the most recent
stored prediction, that prediction is graded Jackpot if both the category and
the value match, Win if only the category matches, and Lose otherwise; the
graded record is the one the cycle keeps for that period. -/
theorem C6_grading (st : AppState) (p0 : Pred) (rest : List Pred) (item : FeedItem)
    (more : List FeedItem)
    (h1 : st.predictions = p0 :: rest) (h2 : p0.period = item.period) :
    ((prediction_job_step st (FeedResult.ok (item :: more))).predictions.find?
        (fun x => x.period == item.period)
      = some { p0 with result := grade_result p0 (get_bs item.number) item.number })
    ∧ (p0.bs = PCat.cat (get_bs item.number) ∧ p0.num = some item.number →
        grade_result p0 (get_bs item.number) item.number = Res.Jackpot)
    ∧ (p0.bs = PCat.cat (get_bs item.number) ∧ p0.num ≠ some item.number →
        grade_result p0 (get_bs item.number) item.number = Res.Win)
    ∧ (p0.bs ≠ PCat.cat (get_bs item.number) →
        grade_result p0 (get_bs item.number) item.number = Res.Lose) := by
  refine ⟨?_, ?_, ?_, ?_⟩
  · have hg : graded_predictions st.predictions (get_bs item.number) item.number item.period
        = { p0 with result := grade_result p0 (get_bs item.number) item.number } :: rest := by
      rw [h1]
      show (if (p0.period == item.period) = true then
          { p0 with result := grade_result p0 (get_bs item.number) item.number } :: rest
        else p0 :: rest) = _
      rw [if_pos (by simp [h2])]
    show List.find? (fun x => x.period == item.period)
        (append_prediction _ (graded_predictions st.predictions (get_bs item.number)
          item.number item.period) (item.period + 1)) = _
    rw [hg]
    exact append_prediction_find_head _ _ _ _ h2
  · intro hb
    unfold grade_result
    rw [if_pos (by simp [hb.1, hb.2])]
  · intro hb
    unfold grade_result
    rw [if_neg (by simp [hb.1, hb.2]), if_pos (by simp [hb.1])]
  · intro hb
    unfold grade_result
    rw [if_neg (by simp [hb]), if_neg (by simp [hb])]

/-- Witness for C6: a pending prediction for period 101 with category B and
value 5 is graded Win by the observation of period 101 with value 7. -/
theorem C6_grading_witness :
    ((AppState.mk [] [Pred.mk 101 (PCat.cat Cat.B) (some 5) 55 Logic.statistical_fallback
        Bias.NEUTRAL Res.P]).predictions
      = Pred.mk 101 (PCat.cat Cat.B) (some 5) 55 Logic.statistical_fallback
          Bias.NEUTRAL Res.P :: [])
    ∧ ((prediction_job_step (AppState.mk [] [Pred.mk 101 (PCat.cat Cat.B) (some 5) 55
          Logic.statistical_fallback Bias.NEUTRAL Res.P])
        (FeedResult.ok (FeedItem.mk 101 7 :: []))).predictions.find?
          (fun x => x.period == (FeedItem.mk 101 7).period)
        = some (Pred.mk 101 (PCat.cat Cat.B) (some 5) 55 Logic.statistical_fallback
            Bias.NEUTRAL Res.Win)) :=
  ⟨rfl,
    (C6_grading (AppState.mk [] [Pred.mk 101 (PCat.cat Cat.B) (some 5) 55
        Logic.statistical_fallback Bias.NEUTRAL Res.P])
      (Pred.mk 101 (PCat.cat Cat.B) (some 5) 55 Logic.statistical_fallback Bias.NEUTRAL Res.P)
      [] (FeedItem.mk 101 7) [] rfl rfl).1⟩

/-- C7: the source has no pending check before grading, so a front prediction
whose period arrives again is re-graded. Against the feed trace with periods
101, 100, 101, 101 (values 9, 9, 7, 3) from the empty state, the prediction
for period 101 is graded Win on the third cycle and then changed to Lose on
the fourth: the claim that an already-graded result never changes fails. -/
theorem C7_regrade :
    (c7_state3.predictions.find? (fun x => x.period == 101)
      = some (Pred.mk 101 (PCat.cat Cat.B) (some 5) 55 Logic.statistical_fallback
          Bias.NEUTRAL Res.Win))
    ∧ ((prediction_job_step c7_state3 (FeedResult.ok [FeedItem.mk 101 3])).predictions.find?
        (fun x => x.period == 101)
      = some (Pred.mk 101 (PCat.cat Cat.B) (some 5) 55 Logic.statistical_fallback
          Bias.NEUTRAL Res.Lose)) := by decide

/-- C8: a feed failure (network error, timeout, bad status, unparsable body)
or a payload that is not a nonempty list aborts the cycle with the state
unchanged; the next scheduled cycle starts from the same state. -/
theorem C8_feed_failure_no_mutation (st : AppState) :
    prediction_job_step st FeedResult.err = st
    ∧ prediction_job_step st (FeedResult.ok []) = st :=
  ⟨rfl, rfl⟩

end DragonX
